import Mathlib

/-!
Verification development for the Quantum Garden engine.

The repository ships the test driver `verify.py`; the engine module
`quantum_garden.py` (classes `QuantumState` and `QuantumGarden`) is not part
of the shown sources, so the engine is modelled here from the specification
document, section by section.  Probabilities and ages are embedded as exact
rationals (ℚ); the floating tolerance `abs(total - 1.0) < 0.01` of the
driver is rendered as the pair of strict bounds `-(1/100) < s - 1 < 1/100`.
Mutating fallible operations are embedded as functions returning the
post-call garden together with an optional error, so that a failed call
visibly leaves the garden unchanged.
-/

/-- Error kinds of the engine, from the error-handling design section:
re-initialisation, bad index, empty garden, unrecognised glyph, missing
load path, malformed persisted record. -/
inductive GardenError where
  | alreadyInit
  | indexError
  | emptyGarden
  | mutationError
  | notFound
  | corruptData
deriving DecidableEq

/-- Modelled from the spec: one branch of reality — a labelled variant with
a probability weight, a mapping from integer coordinates to plant glyphs
(kept as an association list with unique keys), and an age counter. -/
structure QuantumState where
  label : String
  probability : ℚ
  plants : List ((Int × Int) × String)
  age : ℚ
deriving DecidableEq

/-- Modelled from the spec: the glyph given to a freshly planted seed. -/
def defaultGlyph : String := "🌱"

/-- Modelled from the spec: `plant(x, y, glyph)` inserts a plant at (x, y);
overwriting an existing plant is allowed, last write wins, and coordinates
stay unique within the state. -/
def QuantumState.plant (st : QuantumState) (x y : Int) (glyph : String) :
    QuantumState :=
  { st with plants := ((x, y), glyph) :: st.plants.filter (fun p => p.1 != (x, y)) }

/-- Modelled from the spec: `evolve(dt)` advances `age` by `dt`; growth
effects are an implementation choice but must never remove plants — this
model keeps the plant layout unchanged. -/
def QuantumState.evolve (st : QuantumState) (dt : ℚ) : QuantumState :=
  { st with age := st.age + dt }

/-- Modelled from the spec: `set_probability(p)` sets the weight; the caller
is responsible for normalisation across the garden. -/
def QuantumState.set_probability (st : QuantumState) (p : ℚ) : QuantumState :=
  { st with probability := p }

/-- Modelled from the spec: the fixed mutation table over the enumerated
glyph set; every recognised glyph maps to a non-empty variant glyph. -/
def mutationTable : List (String × String) :=
  [("🌱", "🌿"), ("🌿", "🌸"), ("🌸", "🌺"), ("🌺", "🌻"), ("🌳", "🌲"), ("🌲", "🌳")]

/-- The recognised symbol set: the keys of the mutation table. -/
def recognizedGlyphs : List String := mutationTable.map Prod.fst

/-- Modelled from the spec: `mutate_plant(glyph)` looks the glyph up in the
mutation table and fails with `MutationError` exactly when the glyph is
outside the recognised symbol set. -/
def QuantumState.mutate_plant (glyph : String) : Except GardenError String :=
  match mutationTable.lookup glyph with
  | some m => Except.ok m
  | none => Except.error GardenError.mutationError

/-- Modelled from the spec: the garden — an ordered collection of quantum
states plus the observation and reality-split counters. -/
structure QuantumGarden where
  states : List QuantumState
  total_observations : Nat
  reality_splits : Nat
deriving DecidableEq

/-- A freshly constructed garden: no states, zeroed counters. -/
def QuantumGarden.new : QuantumGarden := ⟨[], 0, 0⟩

/-- The three fresh states installed by garden initialisation: distinct
labels, probability 1/3 each, empty plants, age 0. -/
def QuantumGarden.initialStates : List QuantumState :=
  [⟨"Reality 1", 1/3, [], 0⟩, ⟨"Reality 2", 1/3, [], 0⟩, ⟨"Reality 3", 1/3, [], 0⟩]

/-- Modelled from the spec: `initialize_garden()` (named `init_garden` here)
replaces `states` with exactly 3 fresh states of probability 1/3 each and
fails with `AlreadyInitializedError` on a non-empty garden, which it leaves
unchanged. -/
def QuantumGarden.init_garden (g : QuantumGarden) :
    QuantumGarden × Option GardenError :=
  match g.states with
  | [] => ({ g with states := QuantumGarden.initialStates }, none)
  | _ :: _ => (g, some GardenError.alreadyInit)

/-- Modelled from the spec: `plant_seed(x, y)` plants the default glyph at
(x, y) in every current state; no integer coordinate is rejected. -/
def QuantumGarden.plant_seed (g : QuantumGarden) (x y : Int) : QuantumGarden :=
  { g with states := g.states.map (fun st => st.plant x y defaultGlyph) }

/-- Modelled from the spec: `evolve_all_states(dt)` evolves every state by
the same `dt`. -/
def QuantumGarden.evolve_all_states (g : QuantumGarden) (dt : ℚ) : QuantumGarden :=
  { g with states := g.states.map (fun st => st.evolve dt) }

/-- Modelled from the spec: `collapse_state(index)` keeps only the 0-based
selected state, sets its probability to 1.0 and increments
`total_observations`; an out-of-bounds index (in particular any index on an
empty garden) fails with the index error and leaves the garden unchanged. -/
def QuantumGarden.collapse_state (g : QuantumGarden) (i : Nat) :
    QuantumGarden × Option GardenError :=
  match g.states[i]? with
  | some st =>
      ({ g with
          states := [st.set_probability 1],
          total_observations := g.total_observations + 1 }, none)
  | none => (g, some GardenError.indexError)

/-- Modelled from the spec: `create_superposition()` clones the first state
into exactly 3 new states with equal thirds as probabilities, replaces
`states`, and increments `reality_splits`; it fails on an empty garden,
which it leaves unchanged. -/
def QuantumGarden.create_superposition (g : QuantumGarden) :
    QuantumGarden × Option GardenError :=
  match g.states with
  | [] => (g, some GardenError.emptyGarden)
  | basis :: _ =>
      ({ g with
          states :=
            [⟨"Branch α", 1/3, basis.plants, basis.age⟩,
             ⟨"Branch β", 1/3, basis.plants, basis.age⟩,
             ⟨"Branch γ", 1/3, basis.plants, basis.age⟩],
          reality_splits := g.reality_splits + 1 }, none)

/-- Top-left border glyph of the rendered frame. -/
def Renderer.renderTL : String := "╔"

/-- Rest of the top border of the rendered frame. -/
def Renderer.renderTop : String := "══════════════════════╗\n║ "

/-- Header token naming the state in the rendered output. -/
def Renderer.renderHdr : String := "Quantum State"

/-- Bottom border of the rendered frame. -/
def Renderer.renderBot : String := "\n╚══════════════════════╝"

/-- Spatial depiction of the planted coordinates of one state. -/
def Renderer.renderPlants (plants : List ((Int × Int) × String)) : String :=
  plants.foldl
    (fun acc p =>
      acc ++ " (" ++ toString p.1.1 ++ "," ++ toString p.1.2 ++ ")" ++ p.2) ""

/-- Modelled from the spec: the renderer produces a textual snapshot of one
state — a header naming the state, box-drawing border glyphs, and a
depiction of the planted coordinates. -/
def Renderer.render (st : QuantumState) : String :=
  Renderer.renderTL ++ Renderer.renderTop ++ Renderer.renderHdr ++ ": " ++
    st.label ++ " ║" ++ Renderer.renderPlants st.plants ++ Renderer.renderBot

/-- Modelled from the spec: `render_state(index)` delegates to the renderer
for the selected state and fails if the index is out of bounds. -/
def QuantumGarden.render_state (g : QuantumGarden) (i : Nat) :
    Except GardenError String :=
  match g.states[i]? with
  | some st => Except.ok (Renderer.render st)
  | none => Except.error GardenError.indexError

/-- One plant entry of the persisted structured record. -/
structure SavedPlant where
  x : Int
  y : Int
  glyph : String
deriving DecidableEq

/-- One state entry of the persisted structured record. -/
structure SavedState where
  label : String
  probability : ℚ
  plants : List SavedPlant
  age : ℚ
deriving DecidableEq

/-- Modelled from the spec: the persisted structured record —
`{ states: [ { label, probability, plants: [ {x, y, glyph} ], age } ],
total_observations, reality_splits }`.  The file-path transport and its
errors are outside this embedding; `save` produces the record and `load`
consumes it. -/
structure SavedRecord where
  states : List SavedState
  total_observations : Nat
  reality_splits : Nat
deriving DecidableEq

/-- Serialisation of one state into the record shape. -/
def QuantumState.toSaved (st : QuantumState) : SavedState :=
  ⟨st.label, st.probability, st.plants.map (fun p => ⟨p.1.1, p.1.2, p.2⟩), st.age⟩

/-- Reconstruction of one state from the record shape. -/
def SavedState.toState (s : SavedState) : QuantumState :=
  ⟨s.label, s.probability, s.plants.map (fun p => ((p.x, p.y), p.glyph)), s.age⟩

/-- Modelled from the spec: `save` writes the full garden (states in order,
counters) as a structured record. -/
def QuantumGarden.save (g : QuantumGarden) : SavedRecord :=
  ⟨g.states.map QuantumState.toSaved, g.total_observations, g.reality_splits⟩

/-- Modelled from the spec: `load` reconstructs a garden from a structured
record, with the saved state order preserved. -/
def QuantumGarden.load (r : SavedRecord) : QuantumGarden :=
  ⟨r.states.map SavedState.toState, r.total_observations, r.reality_splits⟩

/-- Sum of the probability weights over all states of the garden. -/
def probTotal (g : QuantumGarden) : ℚ :=
  (g.states.map QuantumState.probability).sum

/-- The probability-normalisation invariant: the total probability equals
1.0 within the tolerance 0.01 of the driver, stated as two strict bounds
instead of an absolute value. -/
def probNorm (g : QuantumGarden) : Prop :=
  -(1/100) < probTotal g - 1 ∧ probTotal g - 1 < 1/100

/-- Substring containment on strings, by explicit decomposition. -/
def strContains (needle hay : String) : Prop :=
  ∃ a b : String, hay = a ++ needle ++ b

/-- C2: on a freshly created (empty) garden, initialisation installs exactly
3 states, each with probability 1/3, empty plants and age 0, succeeds, and
the probabilities sum to 1.0 within the tolerance. -/
theorem init_garden_spec (g : QuantumGarden) (h : g.states = []) :
    (g.init_garden).2 = none ∧
    (g.init_garden).1.states.length = 3 ∧
    (g.init_garden).1.states.map QuantumState.probability = [1/3, 1/3, 1/3] ∧
    (g.init_garden).1.states.map QuantumState.plants = [[], [], []] ∧
    (g.init_garden).1.states.map QuantumState.age = [0, 0, 0] ∧
    probNorm (g.init_garden).1 := by
  simp [QuantumGarden.init_garden, h, QuantumGarden.initialStates, probNorm, probTotal]
  norm_num

/-- Closed instance of `init_garden_spec` at the freshly constructed
garden. -/
theorem init_garden_spec_witness :
    (QuantumGarden.new.init_garden).2 = none ∧
    (QuantumGarden.new.init_garden).1.states.length = 3 ∧
    (QuantumGarden.new.init_garden).1.states.map QuantumState.probability = [1/3, 1/3, 1/3] ∧
    (QuantumGarden.new.init_garden).1.states.map QuantumState.plants = [[], [], []] ∧
    (QuantumGarden.new.init_garden).1.states.map QuantumState.age = [0, 0, 0] ∧
    probNorm (QuantumGarden.new.init_garden).1 :=
  init_garden_spec QuantumGarden.new rfl

/-- C3: collapsing at any in-bounds index succeeds, leaves exactly one
state whose probability is 1.0, and increments the observation counter by
exactly 1. -/
theorem collapse_state_spec (g : QuantumGarden) (i : Nat) (st : QuantumState)
    (h : g.states[i]? = some st) :
    (g.collapse_state i).2 = none ∧
    (g.collapse_state i).1.states.length = 1 ∧
    (g.collapse_state i).1.states.map QuantumState.probability = [1] ∧
    (g.collapse_state i).1.total_observations = g.total_observations + 1 := by
  simp [QuantumGarden.collapse_state, h, QuantumState.set_probability]

/-- Closed instance of `collapse_state_spec` on a one-state garden. -/
theorem collapse_state_spec_witness :
    ((⟨[⟨"Reality 1", 1, [], 0⟩], 0, 0⟩ : QuantumGarden).collapse_state 0).2 = none ∧
    ((⟨[⟨"Reality 1", 1, [], 0⟩], 0, 0⟩ : QuantumGarden).collapse_state 0).1.states.length = 1 ∧
    ((⟨[⟨"Reality 1", 1, [], 0⟩], 0, 0⟩ : QuantumGarden).collapse_state 0).1.states.map
      QuantumState.probability = [1] ∧
    ((⟨[⟨"Reality 1", 1, [], 0⟩], 0, 0⟩ : QuantumGarden).collapse_state 0).1.total_observations =
      (⟨[⟨"Reality 1", 1, [], 0⟩], 0, 0⟩ : QuantumGarden).total_observations + 1 :=
  collapse_state_spec ⟨[⟨"Reality 1", 1, [], 0⟩], 0, 0⟩ 0 ⟨"Reality 1", 1, [], 0⟩ rfl

/-- C4: splitting a non-empty garden succeeds and yields exactly 3 states,
each a clone of the plants and age of the first (basis) state, with
probabilities of one third each summing to 1.0, and increments the
reality-split counter by exactly 1. -/
theorem create_superposition_spec (g : QuantumGarden) (b : QuantumState)
    (rest : List QuantumState) (h : g.states = b :: rest) :
    (g.create_superposition).2 = none ∧
    (g.create_superposition).1.states.length = 3 ∧
    (g.create_superposition).1.states.map QuantumState.plants = [b.plants, b.plants, b.plants] ∧
    (g.create_superposition).1.states.map QuantumState.age = [b.age, b.age, b.age] ∧
    (g.create_superposition).1.states.map QuantumState.probability = [1/3, 1/3, 1/3] ∧
    probTotal (g.create_superposition).1 = 1 ∧
    (g.create_superposition).1.reality_splits = g.reality_splits + 1 := by
  simp [QuantumGarden.create_superposition, h, probTotal]
  norm_num

/-- Closed instance of `create_superposition_spec` on a one-state garden. -/
theorem create_superposition_spec_witness :
    ((⟨[⟨"Reality 1", 1, [((5, 5), "🌱")], 10⟩], 1, 0⟩ : QuantumGarden).create_superposition).2 =
      none ∧
    ((⟨[⟨"Reality 1", 1, [((5, 5), "🌱")], 10⟩], 1, 0⟩ :
        QuantumGarden).create_superposition).1.states.length = 3 ∧
    ((⟨[⟨"Reality 1", 1, [((5, 5), "🌱")], 10⟩], 1, 0⟩ :
        QuantumGarden).create_superposition).1.states.map QuantumState.plants =
      [[((5, 5), "🌱")], [((5, 5), "🌱")], [((5, 5), "🌱")]] ∧
    ((⟨[⟨"Reality 1", 1, [((5, 5), "🌱")], 10⟩], 1, 0⟩ :
        QuantumGarden).create_superposition).1.states.map QuantumState.age = [10, 10, 10] ∧
    ((⟨[⟨"Reality 1", 1, [((5, 5), "🌱")], 10⟩], 1, 0⟩ :
        QuantumGarden).create_superposition).1.states.map QuantumState.probability =
      [1/3, 1/3, 1/3] ∧
    probTotal ((⟨[⟨"Reality 1", 1, [((5, 5), "🌱")], 10⟩], 1, 0⟩ :
        QuantumGarden).create_superposition).1 = 1 ∧
    ((⟨[⟨"Reality 1", 1, [((5, 5), "🌱")], 10⟩], 1, 0⟩ :
        QuantumGarden).create_superposition).1.reality_splits =
      (⟨[⟨"Reality 1", 1, [((5, 5), "🌱")], 10⟩], 1, 0⟩ : QuantumGarden).reality_splits + 1 :=
  create_superposition_spec ⟨[⟨"Reality 1", 1, [((5, 5), "🌱")], 10⟩], 1, 0⟩
    ⟨"Reality 1", 1, [((5, 5), "🌱")], 10⟩ [] rfl

/-- C9: a collapse at an out-of-bounds index (which covers every index on
an empty garden) fails with the index error and returns the garden
unchanged — no partial effect on states or counters. -/
theorem collapse_oob_spec (g : QuantumGarden) (i : Nat) (h : g.states.length ≤ i) :
    g.collapse_state i = (g, some GardenError.indexError) := by
  have hnone : g.states[i]? = none := by
    simp [List.getElem?_eq_none h]
  simp [QuantumGarden.collapse_state, hnone]

/-- Closed instance of `collapse_oob_spec` on the empty garden. -/
theorem collapse_oob_spec_witness :
    QuantumGarden.new.collapse_state 0 = (QuantumGarden.new, some GardenError.indexError) :=
  collapse_oob_spec QuantumGarden.new 0 (by decide)

/-- C1: each operation that adds, removes or reweights states preserves the
probability-normalisation invariant — if the probabilities sum to 1.0
within the tolerance before a successful initialisation, collapse or split,
they still do afterwards. -/
theorem prob_sum_preserved (g g₁ g₂ g₃ : QuantumGarden) (i : Nat)
    (htol : probNorm g) :
    (g.init_garden = (g₁, none) → probNorm g₁) ∧
    (g.collapse_state i = (g₂, none) → probNorm g₂) ∧
    (g.create_superposition = (g₃, none) → probNorm g₃) := by
  refine ⟨?_, ?_, ?_⟩
  · intro h
    cases hs : g.states with
    | nil =>
        simp [QuantumGarden.init_garden, hs, Prod.ext_iff] at h
        subst h
        simp [probNorm, probTotal, QuantumGarden.initialStates]
        norm_num
    | cons b rest => simp [QuantumGarden.init_garden, hs] at h
  · intro h
    cases hst : g.states[i]? with
    | none => simp [QuantumGarden.collapse_state, hst] at h
    | some st =>
        simp [QuantumGarden.collapse_state, hst, Prod.ext_iff] at h
        subst h
        norm_num [probNorm, probTotal, QuantumState.set_probability]
  · intro h
    cases hs : g.states with
    | nil => simp [QuantumGarden.create_superposition, hs] at h
    | cons b rest =>
        simp [QuantumGarden.create_superposition, hs, Prod.ext_iff] at h
        subst h
        simp [probNorm, probTotal]
        norm_num

/-- Closed instance of `prob_sum_preserved`: the collapse conjunct applied
to a normalised one-state garden. -/
theorem prob_sum_preserved_witness :
    probNorm (⟨[⟨"Reality 1", 1, [], 0⟩], 1, 0⟩ : QuantumGarden) :=
  (prob_sum_preserved ⟨[⟨"Reality 1", 1, [], 0⟩], 0, 0⟩
      ⟨[⟨"Reality 1", 1, [], 0⟩], 0, 0⟩
      ⟨[⟨"Reality 1", 1, [], 0⟩], 1, 0⟩
      ⟨[⟨"Reality 1", 1, [], 0⟩], 0, 0⟩ 0
      (by constructor <;> norm_num [probNorm, probTotal])).2.1 rfl

/-- Round trip of one plant entry list through the persisted record
shape. -/
theorem plants_roundtrip (pl : List ((Int × Int) × String)) :
    List.map ((fun q : SavedPlant => ((q.x, q.y), q.glyph)) ∘
      fun p : (Int × Int) × String => (⟨p.1.1, p.1.2, p.2⟩ : SavedPlant)) pl = pl := by
  induction pl with
  | nil => rfl
  | cons p t ih => simp [ih, Function.comp]

/-- Round trip of one state through the persisted record shape. -/
theorem state_roundtrip (st : QuantumState) : st.toSaved.toState = st := by
  cases st with
  | mk l p pl a =>
      simp [QuantumState.toSaved, SavedState.toState, List.map_map, plants_roundtrip]

/-- Round trip of a whole state list through the persisted record shape. -/
theorem states_roundtrip (l : List QuantumState) :
    (l.map QuantumState.toSaved).map SavedState.toState = l := by
  induction l with
  | nil => rfl
  | cons s t ih => simp [ih, state_roundtrip]

/-- C5: loading the record produced by saving a garden reconstructs the
garden exactly — same state count, labels, probabilities, plants, ages and
counters, in the same order. -/
theorem save_load_roundtrip (g : QuantumGarden) :
    QuantumGarden.load (QuantumGarden.save g) = g := by
  cases g with
  | mk states obs splits =>
      simp [QuantumGarden.load, QuantumGarden.save]
      rw [← List.map_map]
      exact states_roundtrip states

/-- C6: planting a seed in a non-empty garden puts the default glyph at the
given coordinate in every current state. -/
theorem plant_seed_spec (g : QuantumGarden) (x y : Int) (h : g.states ≠ []) :
    ∀ st ∈ (g.plant_seed x y).states, st.plants.lookup (x, y) = some defaultGlyph := by
  intro st hst
  simp [QuantumGarden.plant_seed] at hst
  obtain ⟨st₀, -, rfl⟩ := hst
  simp [QuantumState.plant, List.lookup]

/-- Closed instance of `plant_seed_spec`, instantiated at the single state
of a one-state garden after planting at (5, 5). -/
theorem plant_seed_spec_witness :
    (⟨"Reality 1", 1, [((5, 5), defaultGlyph)], 0⟩ : QuantumState).plants.lookup (5, 5) =
      some defaultGlyph :=
  plant_seed_spec ⟨[⟨"Reality 1", 1, [], 0⟩], 0, 0⟩ 5 5 (by decide)
    ⟨"Reality 1", 1, [((5, 5), defaultGlyph)], 0⟩
    (by simp [QuantumGarden.plant_seed, QuantumState.plant])

/-- C7: evolving the whole garden by a non-negative `dt` advances the age
of every state by exactly `dt` and leaves the plant layout of every state
unchanged (no plant is lost). -/
theorem evolve_all_spec (g : QuantumGarden) (dt : ℚ) (h : 0 ≤ dt) :
    (g.evolve_all_states dt).states.map QuantumState.age =
      g.states.map (fun st => st.age + dt) ∧
    (g.evolve_all_states dt).states.map QuantumState.plants =
      g.states.map QuantumState.plants := by
  constructor <;>
    simp [QuantumGarden.evolve_all_states, QuantumState.evolve, List.map_map, Function.comp]

/-- Closed instance of `evolve_all_spec` on an initialised garden with
`dt = 10`. -/
theorem evolve_all_spec_witness :
    ((⟨QuantumGarden.initialStates, 0, 0⟩ : QuantumGarden).evolve_all_states 10).states.map
        QuantumState.age =
      (⟨QuantumGarden.initialStates, 0, 0⟩ : QuantumGarden).states.map (fun st => st.age + 10) ∧
    ((⟨QuantumGarden.initialStates, 0, 0⟩ : QuantumGarden).evolve_all_states 10).states.map
        QuantumState.plants =
      (⟨QuantumGarden.initialStates, 0, 0⟩ : QuantumGarden).states.map QuantumState.plants :=
  evolve_all_spec ⟨QuantumGarden.initialStates, 0, 0⟩ 10 (by norm_num)

/-- C8: mutating a recognised glyph yields a non-empty variant glyph;
mutating a glyph outside the recognised symbol set fails with the mutation
error. -/
theorem mutate_plant_spec (glyph : String) :
    (glyph ∈ recognizedGlyphs →
      ∃ m, QuantumState.mutate_plant glyph = Except.ok m ∧ m ≠ "") ∧
    (glyph ∉ recognizedGlyphs →
      QuantumState.mutate_plant glyph = Except.error GardenError.mutationError) := by
  constructor
  · intro h
    simp [recognizedGlyphs, mutationTable] at h
    rcases h with rfl | rfl | rfl | rfl | rfl | rfl <;>
      exact ⟨_, rfl, by decide⟩
  · intro h
    simp [recognizedGlyphs, mutationTable] at h
    obtain ⟨h1, h2, h3, h4, h5, h6⟩ := h
    have hb1 : (glyph == "🌱") = false := beq_eq_false_iff_ne.mpr h1
    have hb2 : (glyph == "🌿") = false := beq_eq_false_iff_ne.mpr h2
    have hb3 : (glyph == "🌸") = false := beq_eq_false_iff_ne.mpr h3
    have hb4 : (glyph == "🌺") = false := beq_eq_false_iff_ne.mpr h4
    have hb5 : (glyph == "🌳") = false := beq_eq_false_iff_ne.mpr h5
    have hb6 : (glyph == "🌲") = false := beq_eq_false_iff_ne.mpr h6
    simp [QuantumState.mutate_plant, mutationTable, List.lookup,
      hb1, hb2, hb3, hb4, hb5, hb6]

/-- Closed instance of `mutate_plant_spec`: the seed glyph is recognised
and mutates to a non-empty glyph, while a plain letter is rejected. -/
theorem mutate_plant_spec_witness :
    (∃ m, QuantumState.mutate_plant "🌱" = Except.ok m ∧ m ≠ "") ∧
    QuantumState.mutate_plant "x" = Except.error GardenError.mutationError :=
  ⟨(mutate_plant_spec "🌱").1 (by decide), (mutate_plant_spec "x").2 (by decide)⟩

/-- C10: a successful render of a state contains the literal header
substring and the top-left box-drawing border glyph. -/
theorem render_state_spec (g : QuantumGarden) (i : Nat) (r : String)
    (h : g.render_state i = Except.ok r) :
    strContains "Quantum State" r ∧ strContains "╔" r := by
  cases hst : g.states[i]? with
  | none => simp [QuantumGarden.render_state, hst] at h
  | some st =>
      simp [QuantumGarden.render_state, hst] at h
      subst h
      constructor
      · rw [show ("Quantum State" : String) = Renderer.renderHdr from rfl]
        refine ⟨Renderer.renderTL ++ Renderer.renderTop,
          ": " ++ st.label ++ " ║" ++ Renderer.renderPlants st.plants ++
            Renderer.renderBot, ?_⟩
        simp [Renderer.render, String.append_assoc]
      · rw [show ("╔" : String) = Renderer.renderTL from rfl]
        refine ⟨"", Renderer.renderTop ++ Renderer.renderHdr ++ ": " ++ st.label ++ " ║" ++
            Renderer.renderPlants st.plants ++ Renderer.renderBot, ?_⟩
        simp [Renderer.render, String.append_assoc, String.empty_append]

/-- Closed instance of `render_state_spec` on a one-state garden. -/
theorem render_state_spec_witness :
    strContains "Quantum State" (Renderer.render ⟨"Reality 1", 1, [], 0⟩) ∧
    strContains "╔" (Renderer.render ⟨"Reality 1", 1, [], 0⟩) :=
  render_state_spec ⟨[⟨"Reality 1", 1, [], 0⟩], 0, 0⟩ 0
    (Renderer.render ⟨"Reality 1", 1, [], 0⟩) rfl
